import Mathlib

/-!
# Shallow embedding of the shuttle-bus reservation backend

This file embeds the data model and handlers of `src/bin/app.rs`
(reservation creation and cancellation, the trip status machine, the
maintenance gate, the reminder scheduler) and proves the specified
properties about them.

Modelling conventions:
 * the Postgres database is a record of lists of rows (`Db`);
 * timestamps are seconds as `Int`, matching `chrono::NaiveDateTime`
   arithmetic where the code uses `Duration::num_seconds` /
   `num_minutes` (the latter truncates toward zero);
 * each `sqlx` call is one atomic operation on the `Db`; a handler in
   isolation is a function `Db → ... → result × Db`;
 * HTTP status codes become the inductive `StatusCode`.
-/

deriving instance DecidableEq for Except

namespace BusApp

/-- The HTTP status codes the handlers produce.  `unprocessableEntity`
(422) is the "capacity exceeded" signal, `serviceUnavailable` (503) the
maintenance / cancelled-trip signal, `conflict` (409) the
duplicate-booking signal. -/
inductive StatusCode where
  | created
  | okCode
  | notFound
  | serviceUnavailable
  | unprocessableEntity
  | conflict
  | internalServerError
  | forbidden
  | badRequest
  deriving Repr, DecidableEq

/-- A row of `trips`: identity, vehicle reference, departure timestamp
(seconds), and the `notification_sent` flag used by the cron job. -/
structure Trip where
  tripId : Nat
  vehicleId : Nat
  departureDatetime : Int
  notificationSent : Bool
  deriving Repr, DecidableEq

/-- A row of `vehicles` (only the fields the core reads). -/
structure Vehicle where
  vehicleId : Nat
  vehicleTypeId : Nat
  deriving Repr, DecidableEq

/-- A row of `vehicle_types`: carries the capacity `total_seats`. -/
structure VehicleType where
  vehicleTypeId : Nat
  totalSeats : Int
  deriving Repr, DecidableEq

/-- A row of `users` (only identity and role matter to the core). -/
structure UserRow where
  userId : Nat
  role : String
  deriving Repr, DecidableEq

/-- A row of `reservations`. -/
structure Reservation where
  reservationId : Nat
  tripId : Nat
  userId : Nat
  seatNumber : Int
  deriving Repr, DecidableEq

/-- A row of `operational_statuses`: the optional overlay expressing a
trip's non-nominal status (`"delayed"` or `"cancelled"`). -/
structure OperationalStatus where
  tripId : Nat
  status : String
  description : Option String
  deriving Repr, DecidableEq

/-- The database state shared by all handlers.  `nextReservationId`
models the id sequence backing `RETURNING reservation_id`. -/
structure Db where
  trips : List Trip
  vehicles : List Vehicle
  vehicleTypes : List VehicleType
  users : List UserRow
  reservations : List Reservation
  operationalStatuses : List OperationalStatus
  appSettings : List (String × String)
  nextReservationId : Nat
  deriving Repr, DecidableEq

/-! ## Maintenance gate (`is_maintenance_mode`, app.rs:1178-1189) -/

/-- Result of `sqlx::query!("SELECT value FROM app_settings WHERE key =
'maintenance_mode'").fetch_optional(pool).await`: either a database
error, or an optional row value. -/
def fetch_maintenance_row (db : Db) : Except Unit (Option String) :=
  .ok ((db.appSettings.find? (fun kv => kv.1 == "maintenance_mode")).map (fun kv => kv.2))

/-- The body of `is_maintenance_mode` applied to a fetch result: the
code runs `.unwrap_or(None)` (collapsing errors to "no row") and then
returns `r.value == "true"` when a row is present, `false` otherwise. -/
def maintenance_from_fetch (r : Except Unit (Option String)) : Bool :=
  match r with
  | .error _ => false
  | .ok none => false
  | .ok (some v) => v == "true"

/-- `is_maintenance_mode` (app.rs:1178): reads the settings row of key
`maintenance_mode` and is `true` exactly when the stored value is the
string `"true"`. -/
def is_maintenance_mode (db : Db) : Bool :=
  maintenance_from_fetch (fetch_maintenance_row db)

/-! ## Reservation creation (`create_reservation`, app.rs:313-448) -/

/-- The trip fetch of `create_reservation` (app.rs:326-339): departure
time plus the LEFT JOINed overlay status, `none` when the trip is
absent. -/
def tripQuery (db : Db) (tid : Nat) : Option (Int × Option String) :=
  (db.trips.find? (fun t => t.tripId == tid)).map (fun t =>
    (t.departureDatetime,
     (db.operationalStatuses.find? (fun os => os.tripId == tid)).map (fun os => os.status)))

/-- The capacity fetch (app.rs:355-371): trips → vehicles →
vehicle_types, returning `total_seats`; `none` models the `fetch_one`
error when a join partner is missing. -/
def capacityQuery (db : Db) (tid : Nat) : Option Int :=
  match db.trips.find? (fun t => t.tripId == tid) with
  | none => none
  | some t =>
    match db.vehicles.find? (fun v => v.vehicleId == t.vehicleId) with
    | none => none
    | some v =>
      (db.vehicleTypes.find? (fun vt => vt.vehicleTypeId == v.vehicleTypeId)).map
        (fun vt => vt.totalSeats)

/-- The seat numbers currently booked on a trip. -/
def seatsOf (db : Db) (tid : Nat) : List Int :=
  (db.reservations.filter (fun r => r.tripId == tid)).map (fun r => r.seatNumber)

/-- The next-seat fetch (app.rs:374-388):
`COALESCE(MAX(seat_number), 0) + 1` over the trip's reservations. -/
def next_seat_query (db : Db) (tid : Nat) : Int :=
  ((seatsOf db tid).max?).getD 0 + 1

/-- The last-minute window test (app.rs:416-421): with
`secs = departure − now`, the code spawns a personal reminder when
`num_seconds() > 0 && num_minutes() <= 120`; `num_minutes` truncates
toward zero, i.e. is `Int.tdiv secs 60`. -/
def reminder_window (departure now : Int) : Bool :=
  let secs := departure - now
  decide (0 < secs) && decide (Int.tdiv secs 60 ≤ 120)

/-- Outcome of `create_reservation`: `created seat reminderSpawned` on
success (201 plus whether the personal-reminder task was spawned),
otherwise the error status code. -/
inductive ReservationResult where
  | created (seat : Int) (reminderSpawned : Bool)
  | errCode (c : StatusCode)
  deriving Repr, DecidableEq

/-- Whether a user already holds a reservation on a trip.  Modelled
from the spec: the `reservations` table (its migration is not under
`src/`) carries a UNIQUE (trip_id, user_id) constraint — "the
(trip,user) uniqueness constraint is the final arbiter of duplicate
booking"; its violation surfaces as Postgres error 23505, which the
handler maps to 409 Conflict (app.rs:436-444). -/
def hasReservation (db : Db) (tid uid : Nat) : Bool :=
  db.reservations.any (fun r => r.tripId == tid && r.userId == uid)

/-- The body of `create_reservation` after the maintenance gate
(app.rs:326-448): trip fetch and cancelled check, capacity fetch,
next-seat computation, capacity check, insert (with conflict on
duplicate (trip,user)), and the last-minute-reminder spawn. -/
def create_reservation_body (db : Db) (now : Int) (tid uid : Nat) :
    ReservationResult × Db :=
  match tripQuery db tid with
  | none => (.errCode .notFound, db)
  | some (departure, st) =>
    if st == some "cancelled" then (.errCode .serviceUnavailable, db)
    else
      match capacityQuery db tid with
      | none => (.errCode .internalServerError, db)
      | some capacity =>
        let ns := next_seat_query db tid
        if ns > capacity then (.errCode .unprocessableEntity, db)
        else if hasReservation db tid uid then (.errCode .conflict, db)
        else
          let row : Reservation :=
            { reservationId := db.nextReservationId, tripId := tid,
              userId := uid, seatNumber := ns }
          (.created ns (reminder_window departure now),
           { db with reservations := db.reservations ++ [row],
                     nextReservationId := db.nextReservationId + 1 })

/-- `create_reservation` (app.rs:313): the maintenance gate first
(503 when on), then the body. -/
def create_reservation (db : Db) (now : Int) (tid uid : Nat) :
    ReservationResult × Db :=
  if is_maintenance_mode db then (.errCode .serviceUnavailable, db)
  else create_reservation_body db now tid uid

/-! ## Reservation cancellation (`cancel_reservation`, app.rs:503-531) -/

/-- `cancel_reservation`: `DELETE FROM reservations WHERE
reservation_id = $1 AND user_id = $2`; 404 when no row was affected. -/
def cancel_reservation (db : Db) (rid uid : Nat) :
    Except StatusCode String × Db :=
  let remaining :=
    db.reservations.filter (fun r => !(r.reservationId == rid && r.userId == uid))
  if remaining.length == db.reservations.length then
    (.error .notFound, db)
  else
    (.ok "cancelled", { db with reservations := remaining })

/-! ## Administrative force delete (`admin_delete_reservation`,
app.rs:1078-1101).  The handler extracts only the reservation id from
the path — it takes no caller identity at all (the source comments that
an admin check would be ideal but is omitted). -/

/-- `admin_delete_reservation`: `DELETE FROM reservations WHERE
reservation_id = $1`; success when a row was affected, 404 otherwise. -/
def admin_delete_reservation (db : Db) (rid : Nat) :
    Except StatusCode String × Db :=
  let remaining := db.reservations.filter (fun r => !(r.reservationId == rid))
  if remaining.length == db.reservations.length then
    (.error .notFound, db)
  else
    (.ok "deleted", { db with reservations := remaining })

/-! ## Trip status machine (`insert_status`, app.rs:536-642)

After an admin check, the handler branches on the target status string:
`"scheduled"` deletes the overlay row; `"delayed"`/`"cancelled"`
upserts it and spawns a task that first attempts the Teams
notification (reading the recipient list at that moment) and — for
`"cancelled"` only — afterwards deletes the trip's reservations.  The
spawned task is sequential; we record its two effects as an ordered
event trace. -/

/-- Observable effects of the spawned status-change task, in order of
occurrence.  `notifyAttempt` records the recipient user ids read at
dispatch time. -/
inductive StatusEvent where
  | notifyAttempt (tid : Nat) (status : String) (recipients : List Nat)
  | deleteReservations (tid : Nat) (count : Nat)
  deriving Repr, DecidableEq

/-- Reservation holders of a trip (the recipients query of
`send_teams_notification`, app.rs:813-825). -/
def holdersOf (db : Db) (tid : Nat) : List Nat :=
  (db.reservations.filter (fun r => r.tripId == tid)).map (fun r => r.userId)

/-- The admin check shared by the administrative handlers: the role of
the fetched user row, if any (`SELECT role FROM users WHERE user_id =
$1` + `fetch_optional`).  The Rust side proceeds exactly when this is
`Some(u)` with `u.role == "admin"`, else 403. -/
def roleOf (db : Db) (uid : Nat) : Option String :=
  (db.users.find? (fun u => u.userId == uid)).map (fun u => u.role)

/-- `insert_status`: admin check, then the status branch; returns the
response, the final database, and the ordered effect trace of the
spawned notification-and-cascade task. -/
def insert_status (db : Db) (uid tid : Nat) (status : String)
    (description : Option String) :
    Except StatusCode String × Db × List StatusEvent :=
  if roleOf db uid == some "admin" then
      if status == "scheduled" then
        (.ok "reset",
         { db with operationalStatuses :=
             db.operationalStatuses.filter (fun os => !(os.tripId == tid)) },
         [])
      else if status == "delayed" || status == "cancelled" then
        let db1 :=
          { db with operationalStatuses :=
              (db.operationalStatuses.filter (fun os => !(os.tripId == tid))) ++
                [{ tripId := tid, status := status, description := description }] }
        let recipients := holdersOf db1 tid
        if status == "cancelled" then
          let remaining := db1.reservations.filter (fun r => !(r.tripId == tid))
          (.ok "updated",
           { db1 with reservations := remaining },
           [.notifyAttempt tid status recipients,
            .deleteReservations tid (db1.reservations.length - remaining.length)])
        else
          (.ok "updated", db1, [.notifyAttempt tid status recipients])
      else (.error .badRequest, db, [])
  else (.error .forbidden, db, [])

/-! ## Reminder scheduler (`run_cron_job`, app.rs:1033-1075, and
`send_reminder_notification`, app.rs:923-1028) -/

/-- Environment of the dispatcher: whether `TEAMS_WEBHOOK_URL` is
configured (a process-wide constant during a run). -/
structure Env where
  webhookConfigured : Bool
  deriving Repr, DecidableEq

/-- Whether the trips table has a row for `tid` (the trip-info fetch of
`send_reminder_notification`; on `none` the function returns false). -/
def trip_exists (db : Db) (tid : Nat) : Bool :=
  (db.trips.find? (fun t => t.tripId == tid)).isSome

/-- The `SELECT DISTINCT` recipients query of
`send_reminder_notification` (app.rs:952-963): reservation holders of
the trip, deduplicated. -/
def reminder_recipients (db : Db) (tid : Nat) : List Nat :=
  (holdersOf db tid).dedup

/-- `send_reminder_notification`: false when the trip row is missing,
when there is no reservation holder, or when the webhook is not
configured; true exactly when a reminder message was sent. -/
def send_reminder_notification (env : Env) (db : Db) (tid : Nat) : Bool :=
  if !(trip_exists db tid) then false
  else if (reminder_recipients db tid).isEmpty then false
  else if !env.webhookConfigured then false
  else true

/-- The tick query of `run_cron_job` (app.rs:1042-1053): trips with
`departure_datetime > now`, `departure_datetime <= now + INTERVAL '2
hours'` and `notification_sent = FALSE`. -/
def cron_select (db : Db) (now : Int) : List Nat :=
  (db.trips.filter (fun t =>
      decide (now < t.departureDatetime) &&
      decide (t.departureDatetime ≤ now + 7200) &&
      !t.notificationSent)).map (fun t => t.tripId)

/-- `UPDATE trips SET notification_sent = TRUE WHERE trip_id = $1`. -/
def mark_notified (db : Db) (tid : Nat) : Db :=
  { db with trips := db.trips.map (fun t =>
      if t.tripId == tid then { t with notificationSent := true } else t) }

/-- The per-trip loop body of a tick: attempt the reminder and, only
when it was actually sent, mark the trip notified.  Returns the final
database and the trips for which a reminder was dispatched, in order. -/
def cron_loop (env : Env) : List Nat → Db × List Nat → Db × List Nat
  | [], acc => acc
  | tid :: rest, (db, evs) =>
    if send_reminder_notification env db tid then
      cron_loop env rest (mark_notified db tid, evs ++ [tid])
    else
      cron_loop env rest (db, evs)

/-- One tick of `run_cron_job`: select the due unnotified trips, then
run the loop. -/
def run_cron_tick (env : Env) (db : Db) (now : Int) : Db × List Nat :=
  cron_loop env (cron_select db now) (db, [])

/-- The `notification_sent` flag of a trip as stored (false when the
trip is absent). -/
def trip_notified (db : Db) (tid : Nat) : Bool :=
  ((db.trips.find? (fun t => t.tripId == tid)).map
    (fun t => t.notificationSent)).getD false

/-! ## Interleaving semantics of concurrent `create_reservation` calls

Each `sqlx` call inside the handler is one atomic database operation;
between two of them the task is suspended at an `.await` and other
requests may run.  A request therefore advances through the phases
below, one database operation per step; the pure capacity/conflict
check travels with the adjacent insert, which is the next atomic
operation after the seat read. -/

/-- Progress of one in-flight `create_reservation` request. -/
inductive Phase where
  | pStart
  | pGate
  | pTrip (departure : Int)
  | pCap (departure capacity : Int)
  | pSeat (departure capacity ns : Int)
  | pDone (r : ReservationResult)
  deriving Repr, DecidableEq

/-- One `create_reservation` request: its payload and the wall-clock
time its handler observes. -/
structure Request where
  tripId : Nat
  userId : Nat
  now : Int
  deriving Repr, DecidableEq

/-- One atomic step of a request: exactly one database operation of
`create_reservation`, against the current shared database. -/
def reqStep (req : Request) (db : Db) : Phase → Db × Phase
  | .pStart =>
    if is_maintenance_mode db then (db, .pDone (.errCode .serviceUnavailable))
    else (db, .pGate)
  | .pGate =>
    match tripQuery db req.tripId with
    | none => (db, .pDone (.errCode .notFound))
    | some (departure, st) =>
      if st == some "cancelled" then (db, .pDone (.errCode .serviceUnavailable))
      else (db, .pTrip departure)
  | .pTrip departure =>
    match capacityQuery db req.tripId with
    | none => (db, .pDone (.errCode .internalServerError))
    | some capacity => (db, .pCap departure capacity)
  | .pCap departure capacity =>
    (db, .pSeat departure capacity (next_seat_query db req.tripId))
  | .pSeat departure capacity ns =>
    if ns > capacity then (db, .pDone (.errCode .unprocessableEntity))
    else if hasReservation db req.tripId req.userId then
      (db, .pDone (.errCode .conflict))
    else
      ({ db with
           reservations := db.reservations ++
             [{ reservationId := db.nextReservationId, tripId := req.tripId,
                userId := req.userId, seatNumber := ns }],
           nextReservationId := db.nextReservationId + 1 },
       .pDone (.created ns (reminder_window departure req.now)))
  | .pDone r => (db, .pDone r)

/-- The shared database plus every in-flight request with its phase. -/
structure ConcState where
  db : Db
  reqs : List (Request × Phase)
  deriving Repr, DecidableEq

/-- Let request `i` take its next step (no-op on an invalid index or a
finished request). -/
def schedStep (s : ConcState) (i : Nat) : ConcState :=
  match s.reqs.get? i with
  | none => s
  | some (req, ph) =>
    let next := reqStep req s.db ph
    { db := next.1, reqs := s.reqs.set i (req, next.2) }

/-- Run a schedule: a list of request indices, each naming who steps
next.  Arbitrary interleavings of the requests are exactly the runs of
arbitrary schedules. -/
def runSchedule (s : ConcState) : List Nat → ConcState
  | [] => s
  | i :: rest => runSchedule (schedStep s i) rest

/-! ## Concrete test databases -/

/-- A one-trip test database: trip 1 on vehicle 10 of vehicle type 20
with the given capacity and departure time, three travellers and one
admin, no reservations, maintenance off. -/
def testDb (capacity departure : Int) : Db :=
  { trips := [{ tripId := 1, vehicleId := 10, departureDatetime := departure,
                notificationSent := false }],
    vehicles := [{ vehicleId := 10, vehicleTypeId := 20 }],
    vehicleTypes := [{ vehicleTypeId := 20, totalSeats := capacity }],
    users := [{ userId := 1, role := "user" }, { userId := 2, role := "user" },
              { userId := 3, role := "user" }, { userId := 9, role := "admin" }],
    reservations := [],
    operationalStatuses := [],
    appSettings := [("maintenance_mode", "false")],
    nextReservationId := 100 }

/-- The capacity-2 test database in which user 1 already holds seat 1
of trip 1. -/
def dbDup : Db :=
  { testDb 2 1000000 with
    reservations := [{ reservationId := 50, tripId := 1, userId := 1, seatNumber := 1 }] }

/-- Scheduler test database: trip 1 (departing at 5000, one
reservation by user 1) and trip 2 (departing at 6000, no
reservations), both unnotified, maintenance off. -/
def dbW : Db :=
  { trips := [{ tripId := 1, vehicleId := 10, departureDatetime := 5000,
                notificationSent := false },
              { tripId := 2, vehicleId := 10, departureDatetime := 6000,
                notificationSent := false }],
    vehicles := [{ vehicleId := 10, vehicleTypeId := 20 }],
    vehicleTypes := [{ vehicleTypeId := 20, totalSeats := 2 }],
    users := [{ userId := 1, role := "user" }],
    reservations := [{ reservationId := 100, tripId := 1, userId := 1,
                       seatNumber := 1 }],
    operationalStatuses := [],
    appSettings := [("maintenance_mode", "false")],
    nextReservationId := 101 }

/-- Two concurrent requests for trip 1 (users 1 and 2) starting against
the capacity-1 test database. -/
def concInit : ConcState :=
  { db := testDb 1 1000000,
    reqs := [({ tripId := 1, userId := 1, now := 0 }, .pStart),
             ({ tripId := 1, userId := 2, now := 0 }, .pStart)] }

/-- The interleaving in which both requests perform all their reads
(maintenance, trip, capacity, MAX(seat_number)) before either insert
runs, then both insert. -/
def concFinal : ConcState :=
  runSchedule concInit [0, 0, 0, 0, 1, 1, 1, 1, 0, 1]

/-- Database states of the book-book-cancel-book scenario behind claim
C8: user 1 books, user 2 books, user 1 cancels reservation 100. -/
def c8d1 : Db := (create_reservation (testDb 2 1000000) 0 1 1).2

/-- Second state of the claim-C8 scenario. -/
def c8d2 : Db := (create_reservation c8d1 0 1 2).2

/-- Third state of the claim-C8 scenario: seat 1 freed by
cancellation, seat 2 still held. -/
def c8d3 : Db := (cancel_reservation c8d2 100 1).2

/-! ## Theorems -/

/-- Claim C1: the claimed serialization of allocation steps (2)-(4)
does not hold.  The handler is a plain read-then-write: on a
capacity-1 trip, two concurrent requests from distinct users whose
MAX(seat_number) reads both happen before either insert both compute
`next_seat = 1`, both pass the capacity check, and both inserts
succeed (the only uniqueness is per (trip,user)).  The run below shows
2 successes on a capacity-1 trip with seat numbers [1, 1] — not
exactly C = 1 successes with seats {1}. -/
theorem overbooking_interleaving :
    capacityQuery (testDb 1 1000000) 1 = some 1 ∧
    concFinal.reqs.map Prod.snd
      = [.pDone (.created 1 false), .pDone (.created 1 false)] ∧
    (concFinal.db.reservations.filter (fun r => r.tripId == 1)).map
      (fun r => r.seatNumber) = [1, 1] := by
  decide

/-- Claim C8: cancelled seats are never reused.  Concretely: on a
capacity-2 trip, users 1 and 2 book seats 1 and 2, user 1 cancels
(seat 1, not the maximum), leaving 1 < 2 reservations; the next
`create_reservation` still computes `next_seat = 3 > 2` and fails with
422 CapacityExceeded. -/
theorem seat_numbers_never_reused :
    (create_reservation (testDb 2 1000000) 0 1 1).1 = .created 1 false ∧
    (create_reservation c8d1 0 1 2).1 = .created 2 false ∧
    (cancel_reservation c8d2 100 1).1 = .ok "cancelled" ∧
    (c8d3.reservations.filter (fun r => r.tripId == 1)).length = 1 ∧
    capacityQuery c8d3 1 = some 2 ∧
    next_seat_query c8d3 1 = 3 ∧
    (create_reservation c8d3 0 1 3).1 = .errCode .unprocessableEntity := by
  decide

/-- Claim C2, counterexample: a call executed in isolation on an
existing, non-cancelled trip with maintenance off, whose computed next
seat (2) does not exceed capacity (2), can still insert nothing — the
caller already holds a reservation, so the insert fails with 409
Conflict and the database is unchanged, refuting "otherwise inserts
exactly one reservation row". -/
theorem create_isolated_claim_counterexample :
    capacityQuery dbDup 1 = some 2 ∧
    next_seat_query dbDup 1 = 2 ∧
    is_maintenance_mode dbDup = false ∧
    create_reservation dbDup 0 1 1 = (.errCode .conflict, dbDup) := by
  decide

/-- Claim C7, counterexample: a booking made 7230 seconds (120 minutes
30 seconds, i.e. more than 120 minutes) before departure still spawns
the last-minute reminder, because the code compares the
truncated-minute count (`num_minutes() <= 120`), refuting the claimed
"at most 120 minutes" boundary. -/
theorem last_minute_window_counterexample :
    (create_reservation (testDb 1 7230) 0 1 1).1 = .created 1 true ∧
    ¬((7230 : Int) - 0 ≤ 120 * 60) := by
  decide

/-- Claim C6: when no reservation row carries both the given id and
the calling user — whether the id belongs to a different owner or does
not exist at all — `cancel_reservation` returns 404 NotFound and
leaves the database (in particular the reservation row) unchanged.
Both causes produce the very same result, so they are
indistinguishable to the caller. -/
theorem cancel_wrong_owner_not_found (db : Db) (rid uid : Nat)
    (h : ∀ r ∈ db.reservations, r.reservationId = rid → r.userId ≠ uid) :
    cancel_reservation db rid uid = (.error .notFound, db) := by
  have hfilter :
      db.reservations.filter (fun r => !(r.reservationId == rid && r.userId == uid))
        = db.reservations := by
    rw [List.filter_eq_self]
    intro r hr
    by_cases hid : r.reservationId = rid
    · have hu := h r hr hid
      simp [hid, hu]
    · simp [hid]
  unfold cancel_reservation
  rw [hfilter]
  simp

/-- Claim C6 witness: in `dbDup` reservation 50 belongs to user 1, so
user 2 cancelling id 50 (wrong owner) and id 777 (absent id) both get
404 with the database untouched. -/
theorem cancel_wrong_owner_not_found_witness :
    cancel_reservation dbDup 50 2 = (.error .notFound, dbDup) ∧
    cancel_reservation dbDup 777 2 = (.error .notFound, dbDup) :=
  ⟨cancel_wrong_owner_not_found dbDup 50 2 (by decide),
   cancel_wrong_owner_not_found dbDup 777 2 (by decide)⟩

/-- Claim C10: `admin_delete_reservation` receives no caller identity
at all (its only input besides the pool is the path's reservation id),
so its outcome is independent of who invokes it: it returns 404 iff no
row with the id exists, removes exactly the rows with that id
otherwise, and on 404 leaves the database unchanged. -/
theorem admin_delete_no_auth (db : Db) (rid : Nat) :
    ((admin_delete_reservation db rid).1 = .error .notFound ↔
      ∀ r ∈ db.reservations, r.reservationId ≠ rid) ∧
    (admin_delete_reservation db rid).2.reservations
      = db.reservations.filter (fun r => !(r.reservationId == rid)) ∧
    ((admin_delete_reservation db rid).1 = .error .notFound →
      (admin_delete_reservation db rid).2 = db) := by
  unfold admin_delete_reservation
  by_cases hlen :
      (db.reservations.filter (fun r => !(r.reservationId == rid))).length
        = db.reservations.length
  · have heq : db.reservations.filter (fun r => !(r.reservationId == rid))
        = db.reservations :=
      (List.filter_sublist _).eq_of_length hlen
    have hall : ∀ r ∈ db.reservations, r.reservationId ≠ rid := by
      intro r hr
      have hpr := (List.filter_eq_self.mp heq) r hr
      simpa using hpr
    have hc : ((db.reservations.filter (fun r => !(r.reservationId == rid))).length
        == db.reservations.length) = true := by
      simpa using hlen
    rw [if_pos hc]
    refine ⟨⟨(fun _ => hall), (fun _ => rfl)⟩, ?_, (fun _ => rfl)⟩
    exact heq.symm
  · have hne : ∃ r ∈ db.reservations, r.reservationId = rid := by
      by_contra hcon
      push_neg at hcon
      apply hlen
      rw [List.filter_eq_self.mpr]
      intro r hr
      simpa using hcon r hr
    have hc : ¬(((db.reservations.filter (fun r => !(r.reservationId == rid))).length
        == db.reservations.length) = true) := by
      simpa using hlen
    rw [if_neg hc]
    refine ⟨⟨(fun habs => by cases habs), ?_⟩, rfl, (fun hcon => by cases hcon)⟩
    intro hall
    obtain ⟨r, hr, hrid⟩ := hne
    exact absurd hrid (hall r hr)

/-- Claim C10 witness: deleting reservation 50 of `dbDup` succeeds and
removes it; deleting the absent id 777 is 404 and changes nothing. -/
theorem admin_delete_no_auth_witness :
    ((admin_delete_reservation dbDup 50).1 = .error .notFound ↔
      ∀ r ∈ dbDup.reservations, r.reservationId ≠ 50) ∧
    (admin_delete_reservation dbDup 50).2.reservations
      = dbDup.reservations.filter (fun r => !(r.reservationId == 50)) ∧
    ((admin_delete_reservation dbDup 777).1 = .error .notFound →
      (admin_delete_reservation dbDup 777).2 = dbDup) :=
  ⟨(admin_delete_no_auth dbDup 50).1, (admin_delete_no_auth dbDup 50).2.1,
   (admin_delete_no_auth dbDup 777).2.2⟩

/-- Claim C5: with maintenance on, `create_reservation` is 503
ServiceUnavailable for every database state, time, trip and user; with
maintenance off it is exactly its post-gate body (the gate sits only at
the very start of booking creation); and cancellation, status changes
and force-deletion are entirely independent of the settings store, so
the gate affects none of them. -/
theorem maintenance_gate_spec :
    (∀ db now tid uid, is_maintenance_mode db = true →
        create_reservation db now tid uid = (.errCode .serviceUnavailable, db)) ∧
    (∀ db now tid uid, is_maintenance_mode db = false →
        create_reservation db now tid uid = create_reservation_body db now tid uid) ∧
    (∀ db s rid uid,
        (cancel_reservation { db with appSettings := s } rid uid).1
          = (cancel_reservation db rid uid).1 ∧
        (cancel_reservation { db with appSettings := s } rid uid).2.reservations
          = (cancel_reservation db rid uid).2.reservations) ∧
    (∀ db s uid tid status d,
        (insert_status { db with appSettings := s } uid tid status d).1
          = (insert_status db uid tid status d).1 ∧
        (insert_status { db with appSettings := s } uid tid status d).2.1.reservations
          = (insert_status db uid tid status d).2.1.reservations ∧
        (insert_status { db with appSettings := s } uid tid status d).2.1.operationalStatuses
          = (insert_status db uid tid status d).2.1.operationalStatuses ∧
        (insert_status { db with appSettings := s } uid tid status d).2.2
          = (insert_status db uid tid status d).2.2) ∧
    (∀ db s rid,
        (admin_delete_reservation { db with appSettings := s } rid).1
          = (admin_delete_reservation db rid).1 ∧
        (admin_delete_reservation { db with appSettings := s } rid).2.reservations
          = (admin_delete_reservation db rid).2.reservations) := by
  refine ⟨?_, ?_, ?_, ?_, ?_⟩
  · intro db now tid uid h
    simp [create_reservation, h]
  · intro db now tid uid h
    simp [create_reservation, h]
  · intro db s rid uid
    unfold cancel_reservation
    by_cases hc : ((db.reservations.filter
        (fun r => !(r.reservationId == rid && r.userId == uid))).length
        == db.reservations.length) = true
    · rw [if_pos hc, if_pos hc]
      exact ⟨rfl, rfl⟩
    · rw [if_neg hc, if_neg hc]
      exact ⟨rfl, rfl⟩
  · intro db s uid tid status d
    dsimp only [insert_status, roleOf]
    split_ifs <;> exact ⟨rfl, rfl, rfl, rfl⟩
  · intro db s rid
    unfold admin_delete_reservation
    by_cases hc : ((db.reservations.filter
        (fun r => !(r.reservationId == rid))).length
        == db.reservations.length) = true
    · rw [if_pos hc, if_pos hc]
      exact ⟨rfl, rfl⟩
    · rw [if_neg hc, if_neg hc]
      exact ⟨rfl, rfl⟩

/-- Claim C5 witness: with the maintenance value set to `"true"`,
booking on the capacity-2 test database is 503 even though seats are
free; with it off, creation runs the body; and a cancellation's result
does not change when the settings row flips. -/
theorem maintenance_gate_spec_witness :
    (create_reservation
        { testDb 2 1000000 with appSettings := [("maintenance_mode", "true")] }
        0 1 1
      = (.errCode .serviceUnavailable,
         { testDb 2 1000000 with appSettings := [("maintenance_mode", "true")] })) ∧
    (create_reservation (testDb 2 1000000) 0 1 1
      = create_reservation_body (testDb 2 1000000) 0 1 1) ∧
    ((cancel_reservation
        { dbDup with appSettings := [("maintenance_mode", "true")] } 50 1).1
      = (cancel_reservation dbDup 50 1).1) :=
  ⟨maintenance_gate_spec.1
      { testDb 2 1000000 with appSettings := [("maintenance_mode", "true")] }
      0 1 1 (by decide),
   maintenance_gate_spec.2.1 (testDb 2 1000000) 0 1 1 (by decide),
   (maintenance_gate_spec.2.2.1 dbDup [("maintenance_mode", "true")] 50 1).1⟩

/-- Claim C9: the maintenance gate fails open.  `maintenance_from_fetch`
(the body of `is_maintenance_mode` applied to the raw fetch outcome) is
`true` exactly when the fetch succeeded with a row whose value is the
string `"true"`; a fetch error, an absent row, and any other stored
string all yield `false`, and with the gate off booking creation
proceeds into the post-gate body. -/
theorem maintenance_fails_open :
    (∀ r : Except Unit (Option String),
        maintenance_from_fetch r = true ↔ r = .ok (some "true")) ∧
    (∀ db now tid uid, is_maintenance_mode db = false →
        create_reservation db now tid uid = create_reservation_body db now tid uid) := by
  constructor
  · intro r
    match r with
    | .error e => simp [maintenance_from_fetch]
    | .ok none => simp [maintenance_from_fetch]
    | .ok (some v) => simp [maintenance_from_fetch]
  · intro db now tid uid h
    simp [create_reservation, h]

/-- Claim C9 witness: a fetch error, a missing row, and the stored
string `"on"` all read as "not blocked", while exactly `"true"` reads
as blocked; with the gate off, creation on the test database runs the
body. -/
theorem maintenance_fails_open_witness :
    (maintenance_from_fetch (.error ()) = true ↔
        (.error () : Except Unit (Option String)) = .ok (some "true")) ∧
    (maintenance_from_fetch (.ok none) = true ↔
        (.ok none : Except Unit (Option String)) = .ok (some "true")) ∧
    (maintenance_from_fetch (.ok (some "on")) = true ↔
        (.ok (some "on") : Except Unit (Option String)) = .ok (some "true")) ∧
    (maintenance_from_fetch (.ok (some "true")) = true ↔
        (.ok (some "true") : Except Unit (Option String)) = .ok (some "true")) ∧
    create_reservation (testDb 2 1000000) 0 1 1
      = create_reservation_body (testDb 2 1000000) 0 1 1 :=
  ⟨maintenance_fails_open.1 (.error ()), maintenance_fails_open.1 (.ok none),
   maintenance_fails_open.1 (.ok (some "on")),
   maintenance_fails_open.1 (.ok (some "true")),
   maintenance_fails_open.2 (testDb 2 1000000) 0 1 1 (by decide)⟩

/-- Filtering out every row satisfying `p` leaves nothing for `find? p`
to find. -/
theorem find?_filter_not {α : Type} (p : α → Bool) (l : List α) :
    (l.filter (fun a => !(p a))).find? p = none := by
  rw [List.find?_eq_none]
  intro a ha
  have h2 := (List.mem_filter.mp ha).2
  simpa using h2

/-- Claim C2 (amended): for a `create_reservation` call executed in
isolation on an existing, non-cancelled trip with maintenance off, the
computed next seat is `max(existing seat numbers) + 1` (defaulting to 1
when the trip has no reservations, since `max?` of the empty list is
`none`); the call fails with 422 CapacityExceeded iff that seat exceeds
the capacity; otherwise, when the caller holds no reservation on the
trip, it inserts exactly one row carrying that seat, and when the
caller already holds one, it fails with 409 Conflict inserting
nothing. -/
theorem create_reservation_isolated_spec (db : Db) (now : Int) (tid uid : Nat)
    (departure : Int) (st : Option String) (cap : Int)
    (hm : is_maintenance_mode db = false)
    (ht : tripQuery db tid = some (departure, st))
    (hst : st ≠ some "cancelled")
    (hc : capacityQuery db tid = some cap) :
    next_seat_query db tid = ((seatsOf db tid).max?).getD 0 + 1 ∧
    ((create_reservation db now tid uid).1 = .errCode .unprocessableEntity ↔
      next_seat_query db tid > cap) ∧
    (next_seat_query db tid ≤ cap → hasReservation db tid uid = false →
      create_reservation db now tid uid =
        (.created (next_seat_query db tid) (reminder_window departure now),
         { db with
             reservations := db.reservations ++
               [{ reservationId := db.nextReservationId, tripId := tid,
                  userId := uid, seatNumber := next_seat_query db tid }],
             nextReservationId := db.nextReservationId + 1 })) ∧
    (next_seat_query db tid ≤ cap → hasReservation db tid uid = true →
      create_reservation db now tid uid = (.errCode .conflict, db)) := by
  have hst' : (st == some "cancelled") = false := by
    simpa using hst
  have hred : create_reservation db now tid uid =
      (if next_seat_query db tid > cap then
        ((.errCode .unprocessableEntity : ReservationResult), db)
      else if hasReservation db tid uid then (.errCode .conflict, db)
      else
        (.created (next_seat_query db tid) (reminder_window departure now),
         { db with
             reservations := db.reservations ++
               [{ reservationId := db.nextReservationId, tripId := tid,
                  userId := uid, seatNumber := next_seat_query db tid }],
             nextReservationId := db.nextReservationId + 1 })) := by
    rw [create_reservation, if_neg (by simp [hm])]
    rw [create_reservation_body, ht]
    simp only [hst', Bool.false_eq_true, if_false, hc]
  refine ⟨rfl, ?_, ?_, ?_⟩
  · by_cases hgt : next_seat_query db tid > cap
    · rw [hred, if_pos hgt]
      exact ⟨(fun _ => hgt), (fun _ => rfl)⟩
    · rw [hred, if_neg hgt]
      by_cases hres : hasReservation db tid uid
      · rw [if_pos hres]
        exact ⟨(fun habs => by cases habs), (fun habs => absurd habs hgt)⟩
      · rw [if_neg hres]
        exact ⟨(fun habs => by cases habs), (fun habs => absurd habs hgt)⟩
  · intro hle hres
    rw [hred, if_neg (by omega), if_neg (by simp [hres])]
  · intro hle hres
    rw [hred, if_neg (by omega), if_pos hres]

/-- Claim C2 witness: on the fresh capacity-2 test database the next
seat is 1 = max(∅)+1, 1 ≤ 2 is not capacity-exceeded, and user 1's
call inserts exactly the row (id 100, trip 1, user 1, seat 1). -/
theorem create_reservation_isolated_spec_witness :
    next_seat_query (testDb 2 1000000) 1
      = ((seatsOf (testDb 2 1000000) 1).max?).getD 0 + 1 ∧
    ((create_reservation (testDb 2 1000000) 0 1 1).1
        = .errCode .unprocessableEntity ↔
      next_seat_query (testDb 2 1000000) 1 > 2) ∧
    create_reservation (testDb 2 1000000) 0 1 1 =
      (.created (next_seat_query (testDb 2 1000000) 1)
        (reminder_window 1000000 0),
       { testDb 2 1000000 with
           reservations := (testDb 2 1000000).reservations ++
             [{ reservationId := (testDb 2 1000000).nextReservationId, tripId := 1,
                userId := 1, seatNumber := next_seat_query (testDb 2 1000000) 1 }],
           nextReservationId := (testDb 2 1000000).nextReservationId + 1 }) := by
  have h := create_reservation_isolated_spec (testDb 2 1000000) 0 1 1
    1000000 none 2 (by decide) (by decide) (by decide) (by decide)
  exact ⟨h.1, h.2.1, h.2.2.1 (by decide) (by decide)⟩

/-- A `create_reservation` call on a trip whose overlay status reads
`cancelled` answers 503 ServiceUnavailable, whatever the maintenance
flag, time, caller and remaining capacity. -/
theorem create_on_cancelled_trip_503 (db : Db) (now : Int) (tid uid : Nat)
    (dep : Int) (ht : tripQuery db tid = some (dep, some "cancelled")) :
    (create_reservation db now tid uid).1 = .errCode .serviceUnavailable := by
  unfold create_reservation
  by_cases hmm : is_maintenance_mode db = true
  · rw [if_pos hmm]
  · rw [if_neg hmm]
    simp [create_reservation_body, ht]

/-- A `create_reservation` call with maintenance off on a trip whose
overlay row is absent never answers 503 ServiceUnavailable (it is
404/500/422/409 or a success, depending on the rest of the state). -/
theorem create_on_scheduled_trip_not_503 (db : Db) (now : Int) (tid uid : Nat)
    (dep : Int) (hm : is_maintenance_mode db = false)
    (ht : tripQuery db tid = some (dep, none)) :
    (create_reservation db now tid uid).1 ≠ .errCode .serviceUnavailable := by
  rw [create_reservation, if_neg (by simp [hm])]
  simp only [create_reservation_body, ht]
  cases hcap : capacityQuery db tid with
  | none => simp
  | some cap =>
    simp only []
    split_ifs <;> simp_all

/-- Resetting a trip to `scheduled` (as an admin) removes its overlay
row, after which a booking attempt with maintenance off no longer
answers 503 ServiceUnavailable. -/
theorem reset_then_create_not_503 (db2 : Db) (uid tid : Nat)
    (desc' : Option String) (now : Int) (uid' : Nat) (t : Trip)
    (hadmin2 : (roleOf db2 uid == some "admin") = true)
    (hm2 : is_maintenance_mode db2 = false)
    (htf2 : db2.trips.find? (fun x => x.tripId == tid) = some t) :
    (create_reservation (insert_status db2 uid tid "scheduled" desc').2.1
        now tid uid').1 ≠ .errCode .serviceUnavailable := by
  have hsched : insert_status db2 uid tid "scheduled" desc'
      = (.ok "reset",
         { db2 with operationalStatuses :=
             db2.operationalStatuses.filter (fun os => !(os.tripId == tid)) },
         []) := by
    unfold insert_status
    rw [if_pos hadmin2, if_pos (by decide)]
  rw [hsched]
  refine create_on_scheduled_trip_not_503 _ now tid uid' t.departureDatetime hm2 ?_
  unfold tripQuery
  dsimp only
  rw [htf2, find?_filter_not (fun os : OperationalStatus => os.tripId == tid)]
  simp

/-- Claim C3: when an admin sets an existing trip's status to
`cancelled` (with maintenance off), the handler acknowledges, the
spawned task's effect trace is exactly the notification attempt —
carrying the *pre-deletion* recipient list — followed by the cascading
delete (so the delete runs only after the notification attempt), every
reservation row of the trip is removed from the final state, every
subsequent `create_reservation` on the trip answers 503
ServiceUnavailable, and after resetting the trip to `scheduled` a
booking attempt no longer answers 503. -/
theorem cancel_cascade_ordering (db : Db) (uid tid : Nat) (desc : Option String)
    (hrole : roleOf db uid = some "admin")
    (ht : trip_exists db tid = true)
    (hm : is_maintenance_mode db = false) :
    (insert_status db uid tid "cancelled" desc).1 = .ok "updated" ∧
    (insert_status db uid tid "cancelled" desc).2.2
      = [.notifyAttempt tid "cancelled" (holdersOf db tid),
         .deleteReservations tid
           (db.reservations.length -
             (db.reservations.filter (fun r => !(r.tripId == tid))).length)] ∧
    (∀ r ∈ (insert_status db uid tid "cancelled" desc).2.1.reservations,
        r.tripId ≠ tid) ∧
    (∀ now uid',
        (create_reservation (insert_status db uid tid "cancelled" desc).2.1
            now tid uid').1 = .errCode .serviceUnavailable) ∧
    (∀ desc' now uid',
        (create_reservation
            (insert_status (insert_status db uid tid "cancelled" desc).2.1
              uid tid "scheduled" desc').2.1 now tid uid').1
          ≠ .errCode .serviceUnavailable) := by
  have hadmin : (roleOf db uid == some "admin") = true := by simp [hrole]
  have hcancel :
      insert_status db uid tid "cancelled" desc =
        (.ok "updated",
         { db with
             reservations := db.reservations.filter (fun r => !(r.tripId == tid)),
             operationalStatuses :=
               (db.operationalStatuses.filter (fun os => !(os.tripId == tid))) ++
                 [({ tripId := tid, status := "cancelled", description := desc } :
                    OperationalStatus)] },
         [.notifyAttempt tid "cancelled" (holdersOf db tid),
          .deleteReservations tid
            (db.reservations.length -
              (db.reservations.filter (fun r => !(r.tripId == tid))).length)]) := by
    unfold insert_status
    rw [if_pos hadmin, if_neg (by decide), if_pos (by decide), if_pos (by decide)]
    rfl
  obtain ⟨t, htf⟩ : ∃ t, db.trips.find? (fun x => x.tripId == tid) = some t := by
    unfold trip_exists at ht
    exact Option.isSome_iff_exists.mp ht
  rw [hcancel]
  refine ⟨rfl, rfl, ?_, ?_, ?_⟩
  · intro r hr
    have hr' : r ∈ db.reservations.filter (fun r => !(r.tripId == tid)) := hr
    have h2 := (List.mem_filter.mp hr').2
    simpa using h2
  · intro now uid'
    refine create_on_cancelled_trip_503 _ now tid uid' t.departureDatetime ?_
    unfold tripQuery
    dsimp only
    rw [htf, List.find?_append, find?_filter_not (fun os : OperationalStatus => os.tripId == tid)]
    simp [List.find?]
  · intro desc' now uid'
    exact reset_then_create_not_503 _ uid tid desc' now uid' t hadmin hm htf

/-- Claim C3 witness: admin 9 cancels trip 1 of `dbDup`; the trace is
notify-then-delete with user 1 as pre-deletion recipient, a booking
attempt afterwards is 503, and after the reset to `scheduled` it is
not 503. -/
theorem cancel_cascade_ordering_witness :
    (insert_status dbDup 9 1 "cancelled" (some "storm")).1 = .ok "updated" ∧
    (insert_status dbDup 9 1 "cancelled" (some "storm")).2.2
      = [.notifyAttempt 1 "cancelled" (holdersOf dbDup 1),
         .deleteReservations 1
           (dbDup.reservations.length -
             (dbDup.reservations.filter (fun r => !(r.tripId == 1))).length)] ∧
    (create_reservation (insert_status dbDup 9 1 "cancelled" (some "storm")).2.1
        0 1 2).1 = .errCode .serviceUnavailable ∧
    (create_reservation
        (insert_status (insert_status dbDup 9 1 "cancelled" (some "storm")).2.1
          9 1 "scheduled" none).2.1 0 1 2).1 ≠ .errCode .serviceUnavailable :=
  (fun h => ⟨h.1, h.2.1, h.2.2.2.1 0 2, h.2.2.2.2 none 0 2⟩)
    (cancel_cascade_ordering dbDup 9 1 (some "storm")
      (by decide) (by decide) (by decide))

/-- Claim C7 (amended): after a successful `create_reservation`, the
single-recipient last-minute reminder is spawned iff `departure − now`
is positive and strictly below 7260 seconds (121 minutes), i.e. iff
the truncated whole-minute count is at most 120 — a window almost a
minute wider than the claimed "at most 120 minutes" (7200 s). -/
theorem last_minute_window_spec (db : Db) (now : Int) (tid uid : Nat)
    (departure : Int) (st : Option String)
    (ht : tripQuery db tid = some (departure, st)) :
    (∀ ns rem, (create_reservation db now tid uid).1 = .created ns rem →
        rem = reminder_window departure now) ∧
    (reminder_window departure now = true ↔
      0 < departure - now ∧ departure - now < 7260) := by
  constructor
  · intro ns rem h
    rw [create_reservation] at h
    by_cases hmm : is_maintenance_mode db = true
    · rw [if_pos hmm] at h
      simp at h
    · rw [if_neg hmm] at h
      simp only [create_reservation_body, ht] at h
      by_cases hst : (st == some "cancelled") = true
      · simp [hst] at h
      · rw [Bool.not_eq_true] at hst
        simp only [hst, Bool.false_eq_true, if_false] at h
        cases hcap : capacityQuery db tid with
        | none => simp [hcap] at h
        | some cap =>
          simp only [hcap] at h
          split_ifs at h with h1 h2
          simp at h
          exact h.2.symm
  · unfold reminder_window
    simp only [Bool.and_eq_true, decide_eq_true_eq]
    constructor
    · rintro ⟨h1, h2⟩
      refine ⟨h1, ?_⟩
      rw [Int.tdiv_eq_ediv (by omega) (by norm_num)] at h2
      omega
    · rintro ⟨h1, h2⟩
      refine ⟨h1, ?_⟩
      rw [Int.tdiv_eq_ediv (by omega) (by norm_num)]
      omega

/-- Claim C7 witness: at 7100 seconds before departure (118 minutes 20
seconds) the window test is positive, matching the characterisation
`0 < 7100 < 7260`, and a successful call's reminder flag is the window
test's value. -/
theorem last_minute_window_spec_witness :
    ((create_reservation (testDb 1 7100) 0 1 1).1 = .created 1 true →
        true = reminder_window 7100 0) ∧
    (reminder_window 7100 0 = true ↔
      0 < (7100 : Int) - 0 ∧ (7100 : Int) - 0 < 7260) :=
  (fun h => ⟨h.1 1 true, h.2⟩)
    (last_minute_window_spec (testDb 1 7100) 0 1 1 7100 none (by decide))

/-- Marking one trip notified does not touch the reservations table. -/
theorem mark_notified_reservations (db : Db) (x : Nat) :
    (mark_notified db x).reservations = db.reservations := rfl

/-- The per-trip predicate scrutinised by the reminder queries is
untouched by marking: composing with the marking function gives the
same id test. -/
theorem mark_notified_comp (x tid : Nat) :
    ((fun t : Trip => t.tripId == tid) ∘
      (fun t : Trip =>
        if t.tripId == x then { t with notificationSent := true } else t))
      = (fun t : Trip => t.tripId == tid) := by
  funext t
  simp only [Function.comp]
  by_cases hx : (t.tripId == x) = true
  · rw [if_pos hx]
  · rw [if_neg hx]

/-- `send_reminder_notification` only reads the trips' ids and the
reservations, so marking any trip notified does not change its
outcome. -/
theorem send_mark (env : Env) (db : Db) (x tid : Nat) :
    send_reminder_notification env (mark_notified db x) tid
      = send_reminder_notification env db tid := by
  unfold send_reminder_notification
  have h1 : trip_exists (mark_notified db x) tid = trip_exists db tid := by
    unfold trip_exists mark_notified
    dsimp only
    rw [List.find?_map, mark_notified_comp]
    exact Option.isSome_map'
  have h2 : reminder_recipients (mark_notified db x) tid
      = reminder_recipients db tid := rfl
  rw [h1, h2]

/-- The dispatches of a scheduler loop are exactly the selected trips
for which the reminder send succeeds against the starting state. -/
theorem cron_loop_events (env : Env) (l : List Nat) :
    ∀ (db : Db) (evs : List Nat),
    (cron_loop env l (db, evs)).2
      = evs ++ l.filter (fun tid => send_reminder_notification env db tid) := by
  induction l with
  | nil =>
    intro db evs
    simp [cron_loop]
  | cons a rest ih =>
    intro db evs
    simp only [cron_loop]
    by_cases hs : send_reminder_notification env db a = true
    · rw [if_pos hs, ih, List.filter_congr
        (fun x _ => by rw [send_mark] : ∀ x ∈ rest,
          send_reminder_notification env (mark_notified db a) x
            = send_reminder_notification env db x),
        List.filter_cons_of_pos hs]
      simp
    · rw [if_neg hs, ih, List.filter_cons_of_neg (by simpa using hs)]

/-- After `mark_notified db tid`, every stored row of trip `tid` has
its `notification_sent` flag set. -/
theorem mark_notified_marks (db : Db) (tid : Nat) :
    ∀ t ∈ (mark_notified db tid).trips, t.tripId = tid →
      t.notificationSent = true := by
  intro t htmem hid
  unfold mark_notified at htmem
  dsimp only at htmem
  rw [List.mem_map] at htmem
  obtain ⟨t0, ht0, heq⟩ := htmem
  by_cases hx : (t0.tripId == tid) = true
  · rw [if_pos hx] at heq
    rw [← heq]
  · rw [if_neg hx] at heq
    subst heq
    exact absurd (by simp [hid]) hx

/-- Marking can only set flags, never clear them: if every row of trip
`tid` was already marked, it stays marked after marking any trip. -/
theorem mark_notified_mono (db : Db) (x tid : Nat)
    (h : ∀ t ∈ db.trips, t.tripId = tid → t.notificationSent = true) :
    ∀ t ∈ (mark_notified db x).trips, t.tripId = tid →
      t.notificationSent = true := by
  intro t htmem hid
  unfold mark_notified at htmem
  dsimp only at htmem
  rw [List.mem_map] at htmem
  obtain ⟨t0, ht0, heq⟩ := htmem
  by_cases hx : (t0.tripId == x) = true
  · rw [if_pos hx] at heq
    rw [← heq]
  · rw [if_neg hx] at heq
    subst heq
    exact h t0 ht0 hid

/-- The scheduler loop never clears a set `notification_sent` flag. -/
theorem cron_loop_marks_mono (env : Env) (l : List Nat) :
    ∀ (db : Db) (evs : List Nat) (tid : Nat),
    (∀ t ∈ db.trips, t.tripId = tid → t.notificationSent = true) →
    ∀ t ∈ (cron_loop env l (db, evs)).1.trips, t.tripId = tid →
      t.notificationSent = true := by
  induction l with
  | nil =>
    intro db evs tid h
    exact h
  | cons a rest ih =>
    intro db evs tid h
    simp only [cron_loop]
    by_cases hs : send_reminder_notification env db a = true
    · rw [if_pos hs]
      exact ih _ _ _ (mark_notified_mono db a tid h)
    · rw [if_neg hs]
      exact ih _ _ _ h

/-- If a trip is in the loop's worklist and its reminder send succeeds,
the loop leaves every row of that trip marked notified. -/
theorem cron_loop_marks (env : Env) (l : List Nat) :
    ∀ (db : Db) (evs : List Nat) (tid : Nat), tid ∈ l →
    send_reminder_notification env db tid = true →
    ∀ t ∈ (cron_loop env l (db, evs)).1.trips, t.tripId = tid →
      t.notificationSent = true := by
  induction l with
  | nil =>
    intro db evs tid hmem
    cases hmem
  | cons a rest ih =>
    intro db evs tid hmem hsend
    simp only [cron_loop]
    by_cases hs : send_reminder_notification env db a = true
    · rw [if_pos hs]
      by_cases hat : a = tid
      · subst hat
        exact cron_loop_marks_mono env rest _ _ _ (mark_notified_marks db a)
      · have hmem' : tid ∈ rest := by
          cases List.mem_cons.mp hmem with
          | inl hcon => exact absurd hcon.symm hat
          | inr hrest => exact hrest
        exact ih _ _ _ hmem' (by rw [send_mark]; exact hsend)
    · rw [if_neg hs]
      by_cases hat : a = tid
      · subst hat
        exact absurd hsend hs
      · have hmem' : tid ∈ rest := by
          cases List.mem_cons.mp hmem with
          | inl hcon => exact absurd hcon.symm hat
          | inr hrest => exact hrest
        exact ih _ _ _ hmem' hsend

/-- Marking trip `a` leaves any other trip's stored flag unchanged. -/
theorem trip_notified_mark_other (db : Db) (a tid0 : Nat) (hne : a ≠ tid0) :
    trip_notified (mark_notified db a) tid0 = trip_notified db tid0 := by
  unfold trip_notified mark_notified
  dsimp only
  rw [List.find?_map, mark_notified_comp]
  cases hf : db.trips.find? (fun t => t.tripId == tid0) with
  | none => rfl
  | some t =>
    have hpt := List.find?_some hf
    have hta : t.tripId = tid0 := by simpa using hpt
    have hta' : t.tripId ≠ a := by
      rw [hta]
      exact Ne.symm hne
    simp [hta']

/-- A trip whose reminder send fails against the starting state keeps
its stored `notification_sent` value through a whole loop. -/
theorem cron_loop_preserves_unsent (env : Env) (l : List Nat) :
    ∀ (db : Db) (evs : List Nat) (tid0 : Nat),
    send_reminder_notification env db tid0 = false →
    trip_notified (cron_loop env l (db, evs)).1 tid0 = trip_notified db tid0 := by
  induction l with
  | nil =>
    intro db evs tid0 h
    rfl
  | cons a rest ih =>
    intro db evs tid0 h
    simp only [cron_loop]
    by_cases hs : send_reminder_notification env db a = true
    · rw [if_pos hs]
      have hne : a ≠ tid0 := by
        intro heq
        subst heq
        rw [hs] at h
        cases h
      rw [ih _ _ _ (by rw [send_mark]; exact h)]
      exact trip_notified_mark_other db a tid0 hne
    · rw [if_neg hs]
      exact ih _ _ _ h

/-- A trip all of whose rows are marked notified is never selected by
the tick query (which demands `notification_sent = FALSE`). -/
theorem marked_not_selected (db : Db) (tid : Nat) (now : Int)
    (h : ∀ t ∈ db.trips, t.tripId = tid → t.notificationSent = true) :
    tid ∉ cron_select db now := by
  intro hmem
  unfold cron_select at hmem
  rw [List.mem_map] at hmem
  obtain ⟨t, htmem, hid⟩ := hmem
  have hfil := List.mem_filter.mp htmem
  have hflag := h t hfil.1 hid
  have hcond := hfil.2
  rw [hflag] at hcond
  simp at hcond

/-- Sanity check of the interleaving model: one request run to
completion with no interleaving computes exactly the sequential
handler's response and final database. -/
theorem runSchedule_single (db : Db) (req : Request) :
    runSchedule { db := db, reqs := [(req, .pStart)] } [0, 0, 0, 0, 0]
      = { db := (create_reservation db req.now req.tripId req.userId).2,
          reqs := [(req,
            .pDone (create_reservation db req.now req.tripId req.userId).1)] } := by
  by_cases h1 : is_maintenance_mode db = true
  · simp [runSchedule, schedStep, reqStep, create_reservation,
      create_reservation_body, h1]
  · cases h2 : tripQuery db req.tripId with
    | none =>
      simp [runSchedule, schedStep, reqStep, create_reservation,
        create_reservation_body, h1, h2]
    | some ds =>
      obtain ⟨dep, st⟩ := ds
      by_cases h3 : (st == some "cancelled") = true
      · simp [runSchedule, schedStep, reqStep, create_reservation,
          create_reservation_body, h1, h2, h3]
      · cases h4 : capacityQuery db req.tripId with
        | none =>
          simp [runSchedule, schedStep, reqStep, create_reservation,
            create_reservation_body, h1, h2, h3, h4]
        | some cap =>
          by_cases h5 : next_seat_query db req.tripId > cap
          · simp [runSchedule, schedStep, reqStep, create_reservation,
              create_reservation_body, h1, h2, h3, h4, h5]
          · by_cases h6 : hasReservation db req.tripId req.userId = true
            all_goals simp [runSchedule, schedStep, reqStep, create_reservation,
              create_reservation_body, h1, h2, h3, h4, h5, h6]

/-- Claim C4: for a trip inside the 2-hour look-ahead window with at
least one reservation (webhook configured, trip ids unique), one
scheduler tick dispatches exactly one periodic reminder for it and sets
`notification_sent`; any later tick dispatches nothing for it; and a
trip with zero reservations gets no dispatch and keeps its stored
`notification_sent` value, so a later tick can still deliver its
reminder. -/
theorem reminder_at_most_once (env : Env) (db : Db) (now : Int) (tid : Nat)
    (t : Trip)
    (henv : env.webhookConfigured = true)
    (hnodup : (db.trips.map (fun t => t.tripId)).Nodup)
    (htmem : t ∈ db.trips) (hid : t.tripId = tid)
    (hflag : t.notificationSent = false)
    (hwin1 : now < t.departureDatetime)
    (hwin2 : t.departureDatetime ≤ now + 7200)
    (hres : holdersOf db tid ≠ []) :
    (run_cron_tick env db now).2.count tid = 1 ∧
    (∀ t' ∈ (run_cron_tick env db now).1.trips, t'.tripId = tid →
        t'.notificationSent = true) ∧
    (∀ now', tid ∉ (run_cron_tick env (run_cron_tick env db now).1 now').2) ∧
    (∀ tid0, holdersOf db tid0 = [] →
        tid0 ∉ (run_cron_tick env db now).2 ∧
        trip_notified (run_cron_tick env db now).1 tid0
          = trip_notified db tid0) := by
  have hex : trip_exists db tid = true := by
    unfold trip_exists
    exact List.find?_isSome.mpr ⟨t, htmem, by simp [hid]⟩
  have hrec : reminder_recipients db tid ≠ [] := by
    unfold reminder_recipients
    rw [Ne, List.dedup_eq_nil]
    exact hres
  have hsend : send_reminder_notification env db tid = true := by
    unfold send_reminder_notification
    simp [hex, henv, hrec]
  have hselect : tid ∈ cron_select db now := by
    unfold cron_select
    rw [List.mem_map]
    refine ⟨t, List.mem_filter.mpr ⟨htmem, ?_⟩, hid⟩
    simp [hwin1, hwin2, hflag]
  have hevset : (run_cron_tick env db now).2
      = (cron_select db now).filter
          (fun x => send_reminder_notification env db x) := by
    unfold run_cron_tick
    rw [cron_loop_events]
    simp
  have hnodupsel : (cron_select db now).Nodup := by
    unfold cron_select
    exact hnodup.sublist ((List.filter_sublist _).map (fun t : Trip => t.tripId))
  refine ⟨?_, ?_, ?_, ?_⟩
  · rw [hevset]
    exact List.count_eq_one_of_mem (hnodupsel.filter _)
      (List.mem_filter.mpr ⟨hselect, hsend⟩)
  · exact cron_loop_marks env (cron_select db now) db [] tid hselect hsend
  · intro now' hmem2
    have hmarks := cron_loop_marks env (cron_select db now) db [] tid hselect hsend
    have hev2 : (run_cron_tick env (run_cron_tick env db now).1 now').2
        = (cron_select (run_cron_tick env db now).1 now').filter
            (fun x =>
              send_reminder_notification env (run_cron_tick env db now).1 x) := by
      unfold run_cron_tick
      rw [cron_loop_events]
      simp
    rw [hev2] at hmem2
    exact marked_not_selected _ tid now' hmarks (List.mem_filter.mp hmem2).1
  · intro tid0 h0
    have hrec0 : reminder_recipients db tid0 = [] := by
      unfold reminder_recipients
      rw [h0]
      exact List.dedup_nil
    have hsend0 : send_reminder_notification env db tid0 = false := by
      unfold send_reminder_notification
      by_cases hex0 : trip_exists db tid0 = true
      · simp [hex0, hrec0]
      · have hex0' : trip_exists db tid0 = false := by
          simpa using hex0
        simp [hex0']
    constructor
    · intro hmem0
      rw [hevset] at hmem0
      have h2 := (List.mem_filter.mp hmem0).2
      rw [hsend0] at h2
      cases h2
    · exact cron_loop_preserves_unsent env (cron_select db now) db [] tid0 hsend0

/-- Claim C4 witness: on `dbW` a tick at time 0 dispatches exactly once
for trip 1 (in the window, one reservation), marks it, a second tick at
time 1000 dispatches nothing for it, while trip 2 (zero reservations)
gets no dispatch and keeps `notification_sent = false`. -/
theorem reminder_at_most_once_witness :
    (run_cron_tick { webhookConfigured := true } dbW 0).2.count 1 = 1 ∧
    (∀ t' ∈ (run_cron_tick { webhookConfigured := true } dbW 0).1.trips,
        t'.tripId = 1 → t'.notificationSent = true) ∧
    (1 ∉ (run_cron_tick { webhookConfigured := true }
        (run_cron_tick { webhookConfigured := true } dbW 0).1 1000).2) ∧
    (2 ∉ (run_cron_tick { webhookConfigured := true } dbW 0).2 ∧
      trip_notified (run_cron_tick { webhookConfigured := true } dbW 0).1 2
        = trip_notified dbW 2) :=
  (fun h => ⟨h.1, h.2.1, h.2.2.1 1000, h.2.2.2 2 (by decide)⟩)
    (reminder_at_most_once { webhookConfigured := true } dbW 0 1
      { tripId := 1, vehicleId := 10, departureDatetime := 5000,
        notificationSent := false }
      rfl (by decide) (by decide) rfl rfl (by decide) (by decide) (by decide))

end BusApp
